import Mathlib

/-!
Verification development for the DataVault message-intelligence system.

The repository's visible code is the Next.js dashboard (components under
`frontend/src` and the unnamed parts), the shared TypeScript types
(`types` module, the `Message`, `QueryResponse`, `CategoryStats`
interfaces), and deployment/config files.  The Python backend
(export parser, normalizer, enrichment service, embedding indexer and
query engine) is not part of the visible sources; where a property
concerns it, the corresponding definition is modelled from the spec and
its doc comment says so.

Conventions of the embedding:
- TypeScript `number` timestamps (epoch milliseconds, the value of
  `new Date(ts).getTime()`) are `Int`.
- Sentiment scores are rationals (`ℚ`); the code only ever compares them
  and averages them, which is exact on `ℚ`.
- TypeScript `string` is `String`, arrays are `List`, optional fields
  are `Option`.
-/

/-- The canonical `Message` record, translated field by field from the
`Message` interface in the shared types module (part_009 lines 1-21).
`timestamp`/`created_at` are ISO strings in TypeScript; every use in the
dashboard converts them with `new Date(...)`, so they are embedded as
epoch-millisecond integers. -/
structure Message where
  id : Nat
  content : String
  message_type : String
  sender_name : String
  sender_id : Option String
  source_type : String
  source_chat_id : Option String
  source_message_id : Option String
  timestamp : Int
  created_at : Int
  categories : List String
  tags : List String
  sentiment : ℚ
  summary : String
  file_path : Option String
  file_type : Option String
  file_size : Option Nat
  processed : Bool
  has_embedding : Bool
deriving DecidableEq, Repr

/-! ### String helpers used by the dashboard filter

`lowerStr` embeds JavaScript `String.prototype.toLowerCase` (character
by character) and `strIncludes` embeds `String.prototype.includes`
(substring containment, true for the empty needle). -/

/-- True when the first character list is an initial segment of the
second (the building block of substring containment). -/
def startsWithChars : List Char → List Char → Bool
  | [], _ => true
  | _ :: _, [] => false
  | a :: as, b :: bs => a = b && startsWithChars as bs

/-- True when the needle occurs contiguously somewhere in the haystack. -/
def containsChars (needle : List Char) : List Char → Bool
  | [] => startsWithChars needle []
  | b :: bs => startsWithChars needle (b :: bs) || containsChars needle bs

/-- Character-wise lower casing, the embedding of `s.toLowerCase()`. -/
def lowerStr (s : String) : String := String.mk (s.toList.map Char.toLower)

/-- Splits on a non-empty separator, accumulating the current piece in
reverse; the fuel (instantiated with the input length) makes the
recursion structural, and is never exhausted because every step
consumes at least one character. -/
def splitOnCharsAux (sep : List Char) :
    Nat → List Char → List Char → List (List Char)
  | _, [], acc => [acc.reverse]
  | 0, l, acc => [acc.reverse ++ l]
  | fuel + 1, c :: cs, acc =>
    if startsWithChars sep (c :: cs) then
      acc.reverse :: splitOnCharsAux sep fuel (cs.drop (sep.length - 1)) []
    else splitOnCharsAux sep fuel cs (c :: acc)

/-- Embedding of `s.split(sep)` / Python `str.split(sep)` for a fixed
non-empty separator: the pieces of `s` between occurrences of `sep`
(the empty string yields one empty piece). -/
def splitOnStr (sep s : String) : List String :=
  (splitOnCharsAux sep.toList s.toList.length s.toList []).map String.mk

/-- Embedding of JavaScript `hay.includes(needle)`. -/
def strIncludes (hay needle : String) : Bool :=
  containsChars needle.toList hay.toList

/-! ### Dashboard message filtering (part_002 lines 31-39) -/

/-- The category test of `Dashboard.filteredMessages`:
`selectedCategory === 'all' || message.categories.includes(selectedCategory)`. -/
def matchesCategory (selectedCategory : String) (m : Message) : Bool :=
  selectedCategory == "all" || m.categories.contains selectedCategory

/-- The search test of `Dashboard.filteredMessages`:
`searchQuery === '' || content.toLowerCase().includes(q) || tags.some(t => t.toLowerCase().includes(q))`
with `q = searchQuery.toLowerCase()`. -/
def matchesSearch (searchQuery : String) (m : Message) : Bool :=
  searchQuery == "" ||
  strIncludes (lowerStr m.content) (lowerStr searchQuery) ||
  m.tags.any (fun t => strIncludes (lowerStr t) (lowerStr searchQuery))

/-- `Dashboard.filteredMessages`: keep the messages passing both tests,
in their original order. -/
def filteredMessages (selectedCategory searchQuery : String)
    (messages : List Message) : List Message :=
  messages.filter (fun m =>
    matchesCategory selectedCategory m && matchesSearch searchQuery m)

/-! ### Sentiment classification (part_008 lines 89-93 and part_004 lines 75-82) -/

/-- The three sentiment classes counted by the time-range Analytics
component (it increments one of the `positive`/`neutral`/`negative`
accumulator fields per message). -/
inductive SentimentClass where
  | positive
  | neutral
  | negative
deriving DecidableEq, Repr

/-- `getSentimentLabel` from the message grid (part_008 lines 89-93):
`> 0.3` is Positive, `< -0.3` is Negative, otherwise Neutral. -/
def getSentimentLabel (sentiment : ℚ) : String :=
  if sentiment > 3/10 then "Positive"
  else if sentiment < -(3/10) then "Negative"
  else "Neutral"

/-- The bucket assignment of the time-range Analytics sentiment
breakdown (part_004 lines 75-82): `> 0.1` positive, `< -0.1` negative,
otherwise neutral. -/
def sentimentBucket (sentiment : ℚ) : SentimentClass :=
  if sentiment > 1/10 then .positive
  else if sentiment < -(1/10) then .negative
  else .neutral

/-- Reads a grid label back as a sentiment class so the two
classifications can be compared on a common codomain. -/
def classOfLabel (label : String) : SentimentClass :=
  if label = "Positive" then .positive
  else if label = "Negative" then .negative
  else .neutral

/-! ### Time-range analytics (part_004 lines 56-85) -/

/-- The four time ranges selectable in the time-range Analytics
component. -/
inductive TimeRange where
  | d7
  | d30
  | d90
  | all
deriving DecidableEq, Repr

/-- `cutoffDate` from part_004 lines 60-62: `new Date(0)` for `'all'`,
otherwise `now - days * 24 * 60 * 60 * 1000` milliseconds. -/
def cutoffDate (now : Int) : TimeRange → Int
  | .d7 => now - 7 * 24 * 60 * 60 * 1000
  | .d30 => now - 30 * 24 * 60 * 60 * 1000
  | .d90 => now - 90 * 24 * 60 * 60 * 1000
  | .all => 0

/-- `filteredMessages` of the time-range Analytics component
(part_004 lines 64-66): the messages whose timestamp is at or after the
cutoff. -/
def timeFilteredMessages (now : Int) (range : TimeRange)
    (messages : List Message) : List Message :=
  messages.filter (fun m => cutoffDate now range ≤ m.timestamp)

/-- The numerator of `avgSentiment` in part_004 lines 84-85: the sum of
the (time-filtered) sentiments. -/
def avgSentimentSum (now : Int) (range : TimeRange)
    (messages : List Message) : ℚ :=
  ((timeFilteredMessages now range messages).map Message.sentiment).sum

/-- The divisor of `avgSentiment` in part_004 line 85:
`filteredMessages.length`, with no emptiness guard on the filtered
list (the component only guards `!messages.length` on the unfiltered
input, line 57).  When this divisor is zero the JavaScript division
`0 / 0` produces `NaN`. -/
def avgSentimentDivisor (now : Int) (range : TimeRange)
    (messages : List Message) : Nat :=
  (timeFilteredMessages now range messages).length

/-- `avgSentiment` of the dashboard Analytics component (part_003
line 73), which guards the empty list explicitly:
`messages.length > 0 ? sum / messages.length : 0`. -/
def avgSentimentDashboard (messages : List Message) : ℚ :=
  if 0 < messages.length then
    (messages.map Message.sentiment).sum / messages.length
  else 0

/-! ### Shapes of the API result types

A TypeScript interface is embedded as its ordered list of fields, each
a name, a type expression and an optionality flag.  This is enough to
compare the declared response shapes with the shapes the spec claims. -/

/-- A TypeScript type expression as far as the interfaces under
verification need: primitives, arrays, and references to named types. -/
inductive TSType where
  | str
  | num
  | boolean
  | arr : TSType → TSType
  | ref : String → TSType
deriving DecidableEq, Repr

/-- One field of a TypeScript interface: its name, type, and whether it
is declared optional (`?:`). -/
structure TSField where
  name : String
  type : TSType
  optional : Bool
deriving DecidableEq, Repr

/-- Looks a field up by name in an interface shape. -/
def fieldLookup (name : String) (fields : List TSField) :
    Option (TSType × Bool) :=
  (fields.find? (fun f => f.name == name)).map (fun f => (f.type, f.optional))

/-- The `QueryResponse` interface of the shared types module
(part_009 lines 31-35): `answer: string`,
`relevant_messages: Message[]`, `sources: string[]`. -/
def queryResponseFields : List TSField :=
  [⟨"answer", .str, false⟩,
   ⟨"relevant_messages", .arr (.ref "Message"), false⟩,
   ⟨"sources", .arr .str, false⟩]

/-- The query-result shape the spec's query contract claims:
`{answer: string, source_message_ids: [id]}`. -/
def querySpecShapeFields : List TSField :=
  [⟨"answer", .str, false⟩,
   ⟨"source_message_ids", .arr (.ref "id"), false⟩]

/-- The `ImportResult` interface of the WhatsApp import component
(frontend/src/components/whatsapp-import.tsx lines 9-17):
`success: boolean`, `message: string`, and an optional `details`
object. -/
def importResultFields : List TSField :=
  [⟨"success", .boolean, false⟩,
   ⟨"message", .str, false⟩,
   ⟨"details", .ref "ImportDetails", true⟩]

/-- The inline type of `ImportResult.details`:
`{imported: number, total: number, errors?: string[]}`. -/
def importDetailsFields : List TSField :=
  [⟨"imported", .num, false⟩,
   ⟨"total", .num, false⟩,
   ⟨"errors", .arr .str, true⟩]

/-- The bulk-import result shape the spec claims:
`{imported: count, total: count, warnings: [string]}`. -/
def importSpecShapeFields : List TSField :=
  [⟨"imported", .num, false⟩,
   ⟨"total", .num, false⟩,
   ⟨"warnings", .arr .str, false⟩]

/-! ### Enrichment Service (backend, not under the visible sources) -/

/-- Modelled from the spec: the `EnrichmentResult` ephemeral value
object of §3 — categories, tags, sentiment, summary, as returned by the
AI text-understanding capability before validation. -/
structure EnrichmentResult where
  categories : List String
  tags : List String
  sentiment : ℚ
  summary : String
deriving DecidableEq, Repr

/-- Modelled from the spec: §4.3 "sentiment is clamped to [-1, 1]". -/
def clampSentiment (s : ℚ) : ℚ := max (-1) (min 1 s)

/-- Modelled from the spec: the bound N of §4.3's default summary
("a truncation of the content (first N characters)"); the spec leaves
the constant open, so the model fixes one. -/
def summaryLimit : Nat := 200

/-- Takes the first `n` characters of a string (the default-summary
truncation of §4.3). -/
def truncateStr (n : Nat) (s : String) : String :=
  String.mk (s.toList.take n)

/-- Modelled from the spec: §4.3 response validation — categories
outside the taxonomy are dropped, sentiment is clamped to [-1, 1], an
empty summary defaults to a truncation of the content. -/
def validateEnrichment (taxonomy : List String) (content : String)
    (r : EnrichmentResult) : EnrichmentResult :=
  { categories := r.categories.filter (fun c => taxonomy.contains c)
    tags := r.tags
    sentiment := clampSentiment r.sentiment
    summary := if r.summary = "" then truncateStr summaryLimit content
               else r.summary }

/-- Modelled from the spec: merging a validated enrichment into the
Message and marking it processed (§3 lifecycle, §4.3). -/
def applyEnrichment (taxonomy : List String) (m : Message)
    (r : EnrichmentResult) : Message :=
  let v := validateEnrichment taxonomy m.content r
  { m with categories := v.categories, tags := v.tags,
           sentiment := v.sentiment, summary := v.summary,
           processed := true }

/-- Modelled from the spec: §4.3 permanent-failure default — sentiment
0, empty categories/tags, summary = truncated content. -/
def neutralResult (m : Message) : EnrichmentResult :=
  ⟨[], [], 0, truncateStr summaryLimit m.content⟩

/-- Modelled from the spec: resolving a permanent AI failure by
applying the default neutral enrichment so the Message never blocks the
pipeline (§4.3 failure semantics). -/
def permanentFailureEnrich (taxonomy : List String) (m : Message) :
    Message :=
  applyEnrichment taxonomy m (neutralResult m)

/-- Modelled from the spec: the Embedding Indexer's only write to the
record — setting `has_embedding` after a successful upsert (§4.4). -/
def indexMessage (m : Message) : Message :=
  { m with has_embedding := true }

/-- The processed-message invariant of §3/§8: `processed == true`
implies the sentiment lies in [-1, 1] and every category belongs to the
configured taxonomy.  (The remaining populated-field part of the
invariant — categories, tags, sentiment, summary never null — holds by
typing: none of those fields is optional, in the TypeScript `Message`
interface or here.) -/
def messageInvariant (taxonomy : List String) (m : Message) : Prop :=
  m.processed = true →
    (-1 ≤ m.sentiment ∧ m.sentiment ≤ 1 ∧
     ∀ c ∈ m.categories, c ∈ taxonomy)

instance (taxonomy : List String) (m : Message) :
    Decidable (messageInvariant taxonomy m) := by
  unfold messageInvariant; infer_instance

/-! ### Normalizer and ingestion (backend, not under the visible sources) -/

/-- Modelled from the spec: the raw ingestion payload of §6 —
`{content, message_type, sender_name, sender_id?, source_type,
source_chat_id?, source_message_id?, timestamp, attachment?}` (the
attachment reference is irrelevant to identity and omitted). -/
structure RawIngest where
  content : String
  message_type : String
  sender_name : String
  sender_id : Option String
  source_type : String
  source_chat_id : Option String
  source_message_id : Option String
  timestamp : Int
deriving DecidableEq, Repr

/-- Modelled from the spec: the stable identity of §3 — unique per
(source_type, source_chat_id, source_message_id) when the native id is
available, else a content+timestamp hash (modelled as the injective
pairing of content and timestamp). -/
def rawIdentity (r : RawIngest) : String :=
  match r.source_message_id with
  | some sid => r.source_type ++ ":" ++ r.source_chat_id.getD "" ++ ":" ++ sid
  | none => r.content ++ "#" ++ toString r.timestamp

/-- The same identity computation read off a stored Message, used for
the upsert-by-identity lookup. -/
def msgIdentity (m : Message) : String :=
  match m.source_message_id with
  | some sid => m.source_type ++ ":" ++ m.source_chat_id.getD "" ++ ":" ++ sid
  | none => m.content ++ "#" ++ toString m.timestamp

/-- Modelled from the spec: `normalize(raw) -> Message` (§4.2) — the
canonical unprocessed record, enrichment fields at their defaults. -/
def normalizeRaw (nextId : Nat) (r : RawIngest) (now : Int) : Message :=
  { id := nextId, content := r.content, message_type := r.message_type,
    sender_name := r.sender_name, sender_id := r.sender_id,
    source_type := r.source_type, source_chat_id := r.source_chat_id,
    source_message_id := r.source_message_id, timestamp := r.timestamp,
    created_at := now, categories := [], tags := [], sentiment := 0,
    summary := "", file_path := none, file_type := none,
    file_size := none, processed := false, has_embedding := false }

/-- Modelled from the spec: default (non-strict) ingestion, §4.2 —
upsert-by-identity over the Record Store (a list of Messages).  Returns
the resulting record, the updated store, and whether enrichment was
enqueued.  Re-ingesting a seen identity is a no-op returning the
existing record unchanged, with no enrichment trigger; a new identity
appends a fresh unprocessed record and triggers enrichment. -/
def ingest (store : List Message) (r : RawIngest) (now : Int) :
    Message × List Message × Bool :=
  match store.find? (fun m => msgIdentity m == rawIdentity r) with
  | some m => (m, store, false)
  | none =>
    let m := normalizeRaw (store.length + 1) r now
    (m, store ++ [m], true)

/-! ### Export Parser (backend, not under the visible sources) -/

/-- Modelled from the spec: the raw message tuple the Export Parser
emits (§2): sender, timestamp, body, plus the message type set by the
media-omitted placeholder rule (the attachment reference carries no
data in a text export). -/
structure RawMessage where
  timestamp : String
  sender : String
  body : String
  msgType : String
deriving DecidableEq, Repr

/-- Modelled from the spec: §4.1's leading-timestamp recognizer — a
token like `1/1/24, 10:00 AM` or `01/01/2024, 22:00`: starts with a
digit and consists of digits, slashes, commas, spaces, colons and the
AM/PM letters, with at least one date slash and one time colon. -/
def isTimestampToken (ts : String) : Bool :=
  match ts.toList with
  | [] => false
  | c :: rest =>
    c.isDigit &&
    (c :: rest).all (fun ch =>
      ch.isDigit || ch = '/' || ch = ',' || ch = ' ' || ch = ':' ||
      ch = 'A' || ch = 'P' || ch = 'M') &&
    (c :: rest).contains '/' && (c :: rest).contains ':'

/-- Modelled from the spec: §4.1's line grammar — a header line is
`<timestamp> - <sender>: <body>`; anything else is not a header. -/
def splitHeader (line : String) : Option (String × String × String) :=
  match splitOnStr " - " line with
  | [] => none
  | ts :: rest =>
    if isTimestampToken ts && !rest.isEmpty then
      match splitOnStr ": " (String.intercalate " - " rest) with
      | [] => none
      | [_] => none
      | sender :: bodyParts =>
        some (ts, sender, String.intercalate ": " bodyParts)
    else none

/-- Modelled from the spec: §4.1's media-omitted placeholder rule —
such a body sets the message type and leaves the content empty. -/
def mkRaw (ts sender body : String) : RawMessage :=
  if body = "<Media omitted>" then ⟨ts, sender, "", "media"⟩
  else ⟨ts, sender, body, "text"⟩

/-- Modelled from the spec: the line loop of §4.1.  A header line
starts a new message (flushing the current one); a non-header line is
appended to the current message's body with a newline; a non-header
line with no current message is skipped with a per-line warning. -/
def parseLines : List String → Option RawMessage →
    List RawMessage × List String
  | [], none => ([], [])
  | [], some cur => ([cur], [])
  | line :: rest, cur =>
    match splitHeader line with
    | some (ts, sender, body) =>
      let (msgs, warns) := parseLines rest (some (mkRaw ts sender body))
      match cur with
      | some c => (c :: msgs, warns)
      | none => (msgs, warns)
    | none =>
      match cur with
      | some c =>
        parseLines rest (some { c with body := c.body ++ "\n" ++ line })
      | none =>
        let (msgs, warns) := parseLines rest none
        (msgs, ("skipped unparseable line: " ++ line) :: warns)

/-- Modelled from the spec: `parse(raw_text, chat_name)` (§4.1) —
split the export into lines and run the tolerant line loop, returning
the parsed messages together with the accumulated warnings.  An empty
file yields an empty sequence and zero warnings. -/
def parse (rawText chatName : String) : List RawMessage × List String :=
  let _ := chatName
  let lines := if rawText = "" then [] else splitOnStr "\n" rawText
  parseLines lines none

/-! ### Query Engine (backend, not under the visible sources) -/

/-- Modelled from the spec: the `QueryAnswer` ephemeral value object of
§3 — the answer text and the ordered list of source Message ids. -/
structure QueryAnswer where
  answer : String
  source_message_ids : List Nat
deriving DecidableEq, Repr

/-- Modelled from the spec: the canned "no data" answer of §4.5's
zero-indexed edge case (its wording is unspecified; any fixed string
serves). -/
def noDataAnswer : String :=
  "No messages are indexed yet, so there is no data to answer from."

/-- The text a Message contributes to the generation context: its
content, falling back to the summary when the content is empty
(§4.4/§4.5). -/
def contextText (m : Message) : String :=
  if m.content = "" then m.summary else m.content

/-- Total length of the assembled context for a candidate list. -/
def totalContextLen (msgs : List Message) : Nat :=
  (msgs.map (fun m => (contextText m).length)).sum

/-- Modelled from the spec: §4.5's context truncation — drop the
lowest-ranked (last) entry while the concatenated context exceeds the
length budget.  Structurally recursive on a fuel equal to the list
length, which bounds the number of drops. -/
def truncateAux (fuel : Nat) (budget : Nat) (msgs : List Message) :
    List Message :=
  match fuel with
  | 0 => msgs
  | fuel + 1 =>
    if totalContextLen msgs ≤ budget then msgs
    else truncateAux fuel budget msgs.dropLast

/-- The context actually sent to the generator: the longest prefix of
the ranked candidates fitting the budget (dropping lowest-ranked
first). -/
def truncateContext (budget : Nat) (msgs : List Message) :
    List Message :=
  truncateAux msgs.length budget msgs

/-- Modelled from the spec: `answer(question, top_k)` (§4.5).  The
Vector Store ranking and the AI generation capability are external
collaborators, passed in as functions (`rank` must return messages
ordered by similarity; `gen` produces the grounded answer).  The
returned Bool records whether the generation capability was invoked.
Zero indexed Messages short-circuits to the canned no-data answer with
no generation call; otherwise the top-K retrieval is hydrated, the
context is truncated to the budget, and the source ids are exactly the
ids of the Messages included in that context. -/
def answerQuery (rank : String → List Message → List Message)
    (gen : String → List Message → String)
    (store : List Message) (question : String) (topK budget : Nat) :
    QueryAnswer × Bool :=
  let indexed := store.filter (fun m => m.has_embedding)
  if indexed.isEmpty then
    ({ answer := noDataAnswer, source_message_ids := [] }, false)
  else
    let retrieved := (rank question indexed).take topK
    let included := truncateContext budget retrieved
    ({ answer := gen question included,
       source_message_ids := included.map Message.id }, true)

/-! ### Concrete fixtures used by the witness theorems -/

/-- A processed, taxonomy-conforming Message used as a concrete
witness input. -/
def procMsg : Message :=
  { id := 7, content := "Just bought Bitcoin!", message_type := "text",
    sender_name := "Alice", sender_id := none, source_type := "telegram",
    source_chat_id := some "c", source_message_id := some "42",
    timestamp := 0, created_at := 0, categories := ["crypto"],
    tags := ["Bitcoin"], sentiment := 0, summary := "bought BTC",
    file_path := none, file_type := none, file_size := none,
    processed := true, has_embedding := false }

/-- A raw ingestion payload whose stable identity coincides with
`procMsg`'s (same source_type/chat/message ids). -/
def procRaw : RawIngest :=
  ⟨"Just bought Bitcoin!", "text", "Alice", none, "telegram",
   some "c", some "42", 0⟩

/-- An indexed Message with a 4-character content, the higher-ranked of
the two retrieval candidates. -/
def msgAAAA : Message :=
  { procMsg with id := 1, content := "aaaa", source_message_id := some "1",
                 categories := [], tags := [], summary := "",
                 has_embedding := true }

/-- An indexed Message with a 4-character content, the lower-ranked of
the two retrieval candidates (truncated out under a 4-character
budget). -/
def msgBBBB : Message :=
  { msgAAAA with id := 2, content := "bbbb", source_message_id := some "2" }

/-- A Message authored at the epoch (imported history far older than
any recent time-range cutoff). -/
def oldMsg : Message :=
  { procMsg with id := 3, timestamp := 0, source_message_id := some "3" }

/-! ### Helper lemmas -/

/-- Context truncation only ever drops entries: its result is a sublist
of the ranked input. -/
theorem truncateAux_sublist (fuel budget : Nat) (msgs : List Message) :
    (truncateAux fuel budget msgs).Sublist msgs := by
  induction fuel generalizing msgs with
  | zero => simp [truncateAux]
  | succ f ih =>
    unfold truncateAux
    split
    · exact List.Sublist.refl _
    · exact (ih msgs.dropLast).trans (List.dropLast_sublist _)

/-- The assembled context is a sublist of the ranked retrieval list. -/
theorem truncateContext_sublist (budget : Nat) (msgs : List Message) :
    (truncateContext budget msgs).Sublist msgs :=
  truncateAux_sublist _ _ _

/-- Merging any validated enrichment result establishes the processed
invariant: the clamp bounds the sentiment and the taxonomy filter
bounds the categories. -/
theorem applyEnrichment_invariant (taxonomy : List String)
    (m : Message) (r : EnrichmentResult) :
    messageInvariant taxonomy (applyEnrichment taxonomy m r) := by
  intro _
  refine ⟨le_max_left _ _, max_le (by norm_num) (min_le_left _ _), ?_⟩
  intro c hc
  have hc' := List.mem_filter.mp hc
  simpa using hc'.2

/-! ### Claim theorems -/

/-- Claim C6: parse applied to the well-formed two-line export
"1/1/24, 10:00 AM - Alice: Hello\nWorld" yields exactly one RawMessage
whose body is "Hello\nWorld" (the continuation line appended with a
newline) and an empty warning list. -/
theorem parser_two_line_round_trip :
    parse "1/1/24, 10:00 AM - Alice: Hello\nWorld" "chat" =
      ([⟨"1/1/24, 10:00 AM", "Alice", "Hello\nWorld", "text"⟩], []) := by
  decide

/-- Claim C3, counterexample: the query result type declared in the
code is not the two-field shape `{answer, source_message_ids}` the
claim states — it has no `source_message_ids` field at all (and three
fields rather than two). -/
theorem queryResponse_shape_ne_spec_shape :
    queryResponseFields ≠ querySpecShapeFields ∧
    fieldLookup "source_message_ids" queryResponseFields = none ∧
    queryResponseFields.length = 3 := by
  decide

/-- Claim C3, amended: the query result returned to the caller has
exactly the shape `{answer: string, relevant_messages: Message[],
sources: string[]}` — the answer string, the hydrated relevant
Messages, and the source identifiers under the field name `sources`. -/
theorem queryResponse_shape_fields :
    queryResponseFields.map TSField.name =
      ["answer", "relevant_messages", "sources"] ∧
    fieldLookup "answer" queryResponseFields = some (.str, false) ∧
    fieldLookup "relevant_messages" queryResponseFields =
      some (.arr (.ref "Message"), false) ∧
    fieldLookup "sources" queryResponseFields = some (.arr .str, false) := by
  decide

/-- Claim C7, counterexample: the bulk-import result type declared in
the code is not the shape `{imported, total, warnings}` the claim
states — `imported`/`total` are not top-level fields and no `warnings`
field exists at either level. -/
theorem importResult_shape_ne_spec_shape :
    importResultFields ≠ importSpecShapeFields ∧
    fieldLookup "imported" importResultFields = none ∧
    fieldLookup "total" importResultFields = none ∧
    fieldLookup "warnings" importResultFields = none ∧
    fieldLookup "warnings" importDetailsFields = none := by
  decide

/-- Claim C7, amended: the bulk-import result has exactly the shape
`{success: boolean, message: string, details?: {imported: number,
total: number, errors?: string[]}}` — the imported/total counts sit
inside the optional `details` object and the warning strings are under
the optional field `errors`. -/
theorem importResult_shape_fields :
    importResultFields.map TSField.name = ["success", "message", "details"] ∧
    fieldLookup "success" importResultFields = some (.boolean, false) ∧
    fieldLookup "message" importResultFields = some (.str, false) ∧
    fieldLookup "details" importResultFields =
      some (.ref "ImportDetails", true) ∧
    importDetailsFields.map TSField.name = ["imported", "total", "errors"] ∧
    fieldLookup "imported" importDetailsFields = some (.num, false) ∧
    fieldLookup "total" importDetailsFields = some (.num, false) ∧
    fieldLookup "errors" importDetailsFields = some (.arr .str, true) := by
  decide

/-- Claim C9: the time-range Analytics divisor is not always non-zero
on a non-empty message list — a single message authored at the epoch
falls outside the 7-day window, so `avgSentiment` divides by zero
(`0 / 0`, i.e. `NaN` in JavaScript), unlike the dashboard Analytics
component whose explicit guard the claim invokes. -/
theorem analytics_divisor_zero_on_nonempty_input :
    ([oldMsg] : List Message) ≠ [] ∧
    avgSentimentDivisor 1700000000000 TimeRange.d7 [oldMsg] = 0 ∧
    avgSentimentDashboard [] = 0 := by
  constructor
  · decide
  constructor
  · decide
  · simp [avgSentimentDashboard]

/-- Claim C10, counterexample: at sentiment 0.2 the message grid labels
the message Neutral while the time-range Analytics breakdown counts it
as positive — the two classifications disagree. -/
theorem sentiment_classifications_disagree_at_point_two :
    getSentimentLabel (1/5 : ℚ) = "Neutral" ∧
    sentimentBucket (1/5 : ℚ) = SentimentClass.positive ∧
    classOfLabel (getSentimentLabel (1/5 : ℚ)) ≠ sentimentBucket (1/5 : ℚ) := by
  have h1 : ¬((1/5 : ℚ) > 3/10) := by norm_num
  have h2 : ¬((1/5 : ℚ) < -(3/10)) := by norm_num
  have h3 : (1/5 : ℚ) > 1/10 := by norm_num
  refine ⟨?_, ?_, ?_⟩
  · unfold getSentimentLabel
    rw [if_neg h1, if_neg h2]
  · unfold sentimentBucket
    rw [if_pos h3]
  · unfold getSentimentLabel sentimentBucket
    rw [if_neg h1, if_neg h2, if_pos h3]
    decide

/-- Claim C10, amended: the grid classification (thresholds ±0.3) and
the Analytics bucket assignment (thresholds ±0.1) agree exactly when
the sentiment lies outside (0.1, 0.3] and outside [-0.3, -0.1); inside
those bands the grid says Neutral while Analytics counts positive
(resp. negative). -/
theorem sentiment_classifications_agree_iff (s : ℚ) :
    classOfLabel (getSentimentLabel s) = sentimentBucket s ↔
      ¬((1/10 < s ∧ s ≤ 3/10) ∨ (-(3/10) ≤ s ∧ s < -(1/10))) := by
  have cpos : classOfLabel "Positive" = SentimentClass.positive := by rfl
  have cneg : classOfLabel "Negative" = SentimentClass.negative := by rfl
  have cneu : classOfLabel "Neutral" = SentimentClass.neutral := by rfl
  unfold getSentimentLabel sentimentBucket
  by_cases h1 : s > 3/10
  · rw [if_pos h1, if_pos (show s > 1/10 by linarith), cpos]
    exact iff_of_true rfl (by rintro (⟨_, hb⟩ | ⟨_, hb⟩) <;> linarith)
  · by_cases h2 : s < -(3/10)
    · rw [if_neg h1, if_pos h2, if_neg (show ¬s > 1/10 by linarith),
          if_pos (show s < -(1/10) by linarith), cneg]
      exact iff_of_true rfl (by rintro (⟨ha, _⟩ | ⟨ha, _⟩) <;> linarith)
    · rw [if_neg h1, if_neg h2, cneu]
      by_cases h4 : s > 1/10
      · rw [if_pos h4]
        exact iff_of_false (by decide)
          (not_not_intro (Or.inl ⟨h4, by linarith⟩))
      · by_cases h5 : s < -(1/10)
        · rw [if_neg h4, if_pos h5]
          exact iff_of_false (by decide)
            (not_not_intro (Or.inr ⟨by linarith, h5⟩))
        · rw [if_neg h4, if_neg h5]
          exact iff_of_true rfl
            (by rintro (⟨ha, _⟩ | ⟨_, hb⟩) <;> linarith)

/-- Claim C1: every pipeline operation yields or preserves the
processed-Message invariant — creation leaves the record unprocessed
(vacuous), both enrichment outcomes (validated success and
permanent-failure neutral default) establish a sentiment in [-1, 1] and
categories inside the taxonomy, and indexing does not disturb it.  The
populated-field half of the claim (categories/tags/sentiment/summary
never null) holds by typing: those fields are non-optional. -/
theorem processed_invariant_preserved (taxonomy : List String)
    (m : Message) (r : EnrichmentResult) (raw : RawIngest)
    (nextId : Nat) (now : Int) (hm : messageInvariant taxonomy m) :
    messageInvariant taxonomy (normalizeRaw nextId raw now) ∧
    messageInvariant taxonomy (applyEnrichment taxonomy m r) ∧
    messageInvariant taxonomy (permanentFailureEnrich taxonomy m) ∧
    messageInvariant taxonomy (indexMessage m) := by
  refine ⟨?_, applyEnrichment_invariant _ _ _,
          applyEnrichment_invariant _ _ _, ?_⟩
  · intro h
    simp [normalizeRaw] at h
  · intro h
    exact hm h

/-- Concrete instance of the invariant preservation: a processed,
taxonomy-conforming message stays invariant-conforming after
indexing. -/
theorem processed_invariant_preserved_witness :
    messageInvariant ["crypto"] (indexMessage procMsg) :=
  (processed_invariant_preserved ["crypto"] procMsg ⟨[], [], 0, ""⟩
    procRaw 1 0 (by decide)).2.2.2

/-- Claim C2: default (non-strict) ingestion is idempotent on message
identity — when the Record Store already holds a Message with the raw
message's stable identity, re-ingesting returns that record unchanged,
leaves the store unchanged (no duplicate), and triggers no
enrichment. -/
theorem ingest_idempotent_on_seen_identity (store : List Message)
    (r : RawIngest) (now : Int) (m : Message)
    (h : store.find? (fun x => msgIdentity x == rawIdentity r) = some m) :
    ingest store r now = (m, store, false) := by
  unfold ingest
  rw [h]

/-- Concrete instance of ingestion idempotence: re-ingesting the
already-stored (and already-processed) `procMsg` payload is a no-op
with no enrichment trigger. -/
theorem ingest_idempotent_witness :
    ingest [procMsg] procRaw 99 = (procMsg, [procMsg], false) :=
  ingest_idempotent_on_seen_identity [procMsg] procRaw 99 procMsg
    (by decide)

/-- Claim C5: with zero Messages indexed in the Vector Store the query
engine returns the canned no-data answer and never invokes the AI
generation capability (the returned flag records a generation call),
for every question, top_k, budget, ranking and generator. -/
theorem answer_no_data_short_circuit
    (rank : String → List Message → List Message)
    (gen : String → List Message → String)
    (store : List Message) (question : String) (topK budget : Nat)
    (h : store.filter (fun m => m.has_embedding) = []) :
    answerQuery rank gen store question topK budget =
      ({ answer := noDataAnswer, source_message_ids := [] }, false) := by
  simp [answerQuery, h]

/-- Concrete instance of the no-data short-circuit on an empty store. -/
theorem answer_no_data_short_circuit_witness :
    answerQuery (fun _ l => l) (fun _ _ => "generated") []
      "any question" 5 1000 =
      ({ answer := noDataAnswer, source_message_ids := [] }, false) :=
  answer_no_data_short_circuit _ _ _ _ _ _ rfl

/-- Claim C4: the source ids the query engine returns reflect exactly
the Messages included in the assembled context — a Message retrieved
but truncated out of the context (dropped lowest-ranked first when over
the length budget) never contributes its id to `source_message_ids`
(assuming the retrieval carries no duplicate ids). -/
theorem sources_reflect_truncated_context
    (rank : String → List Message → List Message)
    (gen : String → List Message → String)
    (store : List Message) (question : String) (topK budget : Nat)
    (m : Message)
    (hnd : (((rank question (store.filter fun x => x.has_embedding)).take
      topK).map Message.id).Nodup)
    (hm : m ∈ (rank question (store.filter fun x => x.has_embedding)).take
      topK)
    (hdrop : m ∉ truncateContext budget
      ((rank question (store.filter fun x => x.has_embedding)).take topK)) :
    m.id ∉ (answerQuery rank gen store question topK budget).1.source_message_ids := by
  unfold answerQuery
  by_cases hemp : (store.filter fun x => x.has_embedding).isEmpty = true
  · simp [hemp]
  · simp only [hemp, if_neg, Bool.false_eq_true, if_false]
    intro hmem
    obtain ⟨m2, hm2, hid⟩ := List.mem_map.mp hmem
    have hm2r := (truncateContext_sublist budget _).subset hm2
    exact hdrop (List.inj_on_of_nodup_map hnd hm2r hm hid ▸ hm2)

/-- Concrete instance of source attribution: with a 4-character budget
only the top-ranked of two 4-character Messages fits the context, and
the truncated-out Message's id is absent from the returned sources. -/
theorem sources_reflect_truncated_context_witness :
    msgBBBB.id ∉ (answerQuery (fun _ l => l) (fun _ _ => "ans")
      [msgAAAA, msgBBBB] "q" 2 4).1.source_message_ids :=
  sources_reflect_truncated_context _ _ _ _ _ _ _
    (by decide) (by decide) (by decide)

/-- Claim C8: the Dashboard's filteredMessages computation is an
order-preserving sublist selection — the identity with category 'all'
and an empty search query, and in general membership holds exactly for
the messages whose categories contain the selected category (or the
category is 'all') and whose content or some tag contains the search
query case-insensitively. -/
theorem dashboard_filter_characterization (cat q : String)
    (msgs : List Message) (m : Message) :
    filteredMessages "all" "" msgs = msgs ∧
    (m ∈ filteredMessages cat q msgs ↔
      m ∈ msgs ∧ (cat = "all" ∨ cat ∈ m.categories) ∧
        (q = "" ∨ strIncludes (lowerStr m.content) (lowerStr q) = true ∨
          ∃ t ∈ m.tags, strIncludes (lowerStr t) (lowerStr q) = true)) ∧
    (filteredMessages cat q msgs).Sublist msgs := by
  refine ⟨?_, ?_, List.filter_sublist _⟩
  · apply List.filter_eq_self.mpr
    intro a _
    simp [matchesCategory, matchesSearch]
  · simp [filteredMessages, List.mem_filter, matchesCategory,
      matchesSearch, and_assoc, or_assoc]
